import Mathlib

/-
Verification of the uncertain-array elementwise dispatch engine
(src/GTC/uncertain_array.py).

The Python class `UncertainArray` subclasses `numpy.ndarray` with
`dtype=object` elements.  We embed it as a record holding the flat element
list in C (row-major) order together with the shape, the informational
label, the element-kind tag, and the `_broadcasted_shape` scratch field
that `__array_ufunc__` writes during binary dispatch.

Scalar elements (plain numbers or uncertain numbers) are kept abstract:
the operations the engine forwards to them are collected in the
`ScalarOps` class, mirroring the "Scalar Capability Contract" that the
source imports from GTC.core / GTC.lib.  A concrete instance `RNum`
(numbers extended with NaN and signed infinities, as `float` is used in
the source's doctests) is used for concrete evaluations.
-/

/-- Element-kind tag of an array (`numpy.dtype`): `object` is the generic
kind used for uncertain elements; the others stand for concrete numeric
kinds. -/
inductive DType where
  | object
  | float64
  | complex128
  | boolKind
deriving DecidableEq, Repr

/-- The array container (class `UncertainArray`, uncertain_array.py lines
104-137): `shape`, the flat element data in C order, the `_label` set at
construction, the transient `_broadcasted_shape` scratch written by
`__array_ufunc__` (initialised to `None` by `__array_finalize__`), and
the element kind. -/
structure UncertainArray (α : Type) where
  shape : List Nat
  data : List α
  label : Option String := none
  broadcasted_shape : Option (List Nat) := none
  dtype : DType := DType.object
deriving DecidableEq, Repr

/-- Possible results of a dispatched operation: a re-wrapped
`UncertainArray`, a bare scalar (the 0-dimensional short-circuit and full
reductions), a plain boolean ndarray (predicate handlers return the raw
buffer), or a bare Python bool. -/
inductive URes (α : Type) where
  | uarr (a : UncertainArray α)
  | scalar (x : α)
  | boolArr (shape : List Nat) (data : List Bool)
  | boolScalar (b : Bool)
deriving DecidableEq, Repr

/-- Errors surfaced by the engine: `TypeError` (with its message),
`ValueError` (shape incompatibility raised by `np.broadcast`), and
`AttributeError` (e.g. `.item` looked up on a broadcast iterator). -/
inductive UErr where
  | typeError (msg : String)
  | valueError
  | attributeError
deriving DecidableEq, Repr

/-- Equality of dispatch outcomes is decidable (used to evaluate the
engine on concrete inputs). -/
instance {e b : Type} [DecidableEq e] [DecidableEq b] : DecidableEq (Except e b) := fun x y =>
  match x, y with
  | Except.ok u, Except.ok v =>
      if h : u = v then Decidable.isTrue (by rw [h])
      else Decidable.isFalse (fun hc => h (by cases hc; rfl))
  | Except.ok _, Except.error _ => Decidable.isFalse (fun hc => Except.noConfusion hc)
  | Except.error _, Except.ok _ => Decidable.isFalse (fun hc => Except.noConfusion hc)
  | Except.error u, Except.error v =>
      if h : u = v then Decidable.isTrue (by rw [h])
      else Decidable.isFalse (fun hc => h (by cases hc; rfl))

/-- A raw input of a binary ufunc call before coercion
(uncertain_array.py lines 159-172): either already an ndarray-like, or a
single number / uncertain scalar. -/
inductive UIn (α : Type) where
  | arr (a : UncertainArray α)
  | num (x : α)
deriving DecidableEq, Repr

/-- Inputs as they reach a binary handler after `__array_ufunc__`'s
coercion step: either two ndarrays of equal shape, or the pair of
shape-aligned flat iterators produced by `np.broadcast(...).iters`
(lines 175-178). -/
inductive BinIn (α : Type) where
  | nds (x y : UncertainArray α)
  | iters (xs ys : List α)
deriving DecidableEq, Repr

/-- Broadcast of a single axis pair (standard array-broadcasting rule):
the sizes must be equal or one of them must be 1. -/
def bdim (m n : Nat) : Option Nat :=
  if m = 1 then some n else if n = 1 then some m else if m = n then some m else none

/-- Broadcast of two shapes given with trailing dimensions first
(i.e. reversed); a missing leading axis behaves as size 1. -/
def bcastRev : List Nat → List Nat → Option (List Nat)
  | [], t => some t
  | s, [] => some s
  | m :: s, n :: t =>
    match bdim m n, bcastRev s t with
    | some d, some r => some (d :: r)
    | _, _ => none

/-- The canonical broadcast shape of two shapes (`np.broadcast`): align
trailing dimensions; `none` when the shapes are incompatible. -/
def broadcastShapes (s t : List Nat) : Option (List Nat) :=
  (bcastRev s.reverse t.reverse).map List.reverse

/-- Multi-index of flat position `i` in C order over `shape`. -/
def unravel : List Nat → Nat → List Nat
  | [], _ => []
  | _ :: ds, i => i / ds.prod :: unravel ds (i % ds.prod)

/-- Flat position of a multi-index in C order over `shape`. -/
def ravel : List Nat → List Nat → Nat
  | _, [] => 0
  | [], _ => 0
  | _ :: ds, c :: cs => c * ds.prod + ravel ds cs

/-- Project a broadcast multi-index onto an operand: coordinates along
size-1 axes of the operand are pinned to 0 (the axis is replicated). -/
def maskIdx (shape idx : List Nat) : List Nat :=
  List.zipWith (fun d c => if d = 1 then 0 else c) shape idx

/-- Flat index into an operand of shape `shape` corresponding to flat
position `i` of the broadcast iteration over `bshape` (align trailing
axes, pin size-1 axes, re-flatten). -/
def bcastIndex (shape bshape : List Nat) (i : Nat) : Nat :=
  ravel shape (maskIdx shape ((unravel bshape i).drop (bshape.length - shape.length)))

/-- Element `i` of the flat iteration over array `a` broadcast to shape
`bs` (what `np.broadcast(...).iters` yields at step `i`). -/
def bcastGet [Inhabited α] (a : UncertainArray α) (bs : List Nat) (i : Nat) : α :=
  a.data.getD (bcastIndex a.shape bs i) default

/-- The whole flat iteration of `a` broadcast to `bs`. -/
def bcastFlat [Inhabited α] (a : UncertainArray α) (bs : List Nat) : List α :=
  (List.range bs.prod).map (bcastGet a bs)

/-- Result Materialization buffer (`_create_empty`, lines 208-220):
`np.empty(size)` followed by `itemset(i, vals[i])` for each enumerated
iterator element.  Slots the iterator does not reach keep the
uninitialised `np.empty` content, modelled by `default`. -/
def emptyFill [Inhabited α] (n : Nat) (vals : List α) : List α :=
  (List.range n).map (fun i => vals.getD i default)

/-- The scalar capability contract consumed by the engine: elementwise
arithmetic, comparisons, the NaN/infinity tests of the module-level
`_isnan`/`_isinf` helpers (lines 65-81, which apply `value` first), the
Python truthiness used by the logical handlers, and division by a count
(used by the `mean` reduction). -/
class ScalarOps (α : Type) where
  add : α → α → α
  neg : α → α
  ltb : α → α → Bool
  leb : α → α → Bool
  gtb : α → α → Bool
  geb : α → α → Bool
  eqb : α → α → Bool
  neb : α → α → Bool
  isnanE : α → Bool
  isinfE : α → Bool
  toBool : α → Bool
  divn : α → Nat → α

/-- `self.item(0)`: the sole (first) flat element. -/
def item0 [Inhabited α] (a : UncertainArray α) : α := a.data.getD 0 default

/-- `inputs[0].item(0), inputs[1].item(0)` in the 0-dimensional branch of
the binary handlers: succeeds on ndarrays; on the broadcast iterators of
`np.broadcast(...).iters` the `.item` attribute lookup fails. -/
def binItems [Inhabited α] : BinIn α → Except UErr (α × α)
  | BinIn.nds x y => Except.ok (item0 x, item0 y)
  | BinIn.iters _ _ => Except.error UErr.attributeError

/-- The paired element stream a binary handler enumerates
(`_create_empty`, lines 215-220): `izip` of the two flat iterators. -/
def binPairs : BinIn α → List (α × α)
  | BinIn.nds x y => x.data.zip y.data
  | BinIn.iters xs ys => xs.zip ys

/-- The output shape used by `_create_empty` (line 211): the shape of
`self` unless the `_broadcasted_shape` scratch is set. -/
def resolvedShape (a : UncertainArray α) : List Nat :=
  a.broadcasted_shape.getD a.shape

/-- `UncertainArray(arr)` sealing a freshly filled object buffer: the new
array keeps the buffer's shape, has no label, generic element kind, and a
cleared scratch field (`__array_finalize__`). -/
def mkResultArr (shape : List Nat) (data : List α) : UncertainArray α :=
  { shape := shape, data := data, label := none,
    broadcasted_shape := none, dtype := DType.object }

/-- Common shape of the elementwise binary handlers that re-wrap
(`_add`, `_subtract`, ..., lines 542-594): 0-dimensional short-circuit to
the bare scalar result, otherwise materialize over the paired stream. -/
def binElemwise [Inhabited α] (self : UncertainArray α) (inp : BinIn α)
    (g : α → α → α) : Except UErr (URes α) :=
  if self.shape.length = 0 then
    (binItems inp).map (fun p => URes.scalar (g p.1 p.2))
  else
    let shp := resolvedShape self
    Except.ok (URes.uarr (mkResultArr shp
      (emptyFill shp.prod ((binPairs inp).map (fun p => g p.1 p.2)))))

/-- Common shape of the boolean-buffer binary handlers (`_equal`,
`_less`, ..., lines 830-882): 0-dimensional short-circuit to a bare bool,
otherwise fill a `dtype=bool` buffer and return it unwrapped. -/
def binPredicate [Inhabited α] (self : UncertainArray α) (inp : BinIn α)
    (g : α → α → Bool) : Except UErr (URes α) :=
  if self.shape.length = 0 then
    (binItems inp).map (fun p => URes.boolScalar (g p.1 p.2))
  else
    let shp := resolvedShape self
    Except.ok (URes.boolArr shp
      (emptyFill shp.prod ((binPairs inp).map (fun p => g p.1 p.2))))

/-- Common shape of the unary re-wrapping handlers (`_negative`,
`_conjugate`, `_exp`, ..., one-input case of `_create_empty`): the
iterator is `self.flat`, the buffer shape is the resolved shape. -/
def unaryElemwise [Inhabited α] (self : UncertainArray α) (g : α → α) :
    Except UErr (URes α) :=
  if self.shape.length = 0 then Except.ok (URes.scalar (g (item0 self)))
  else
    let shp := resolvedShape self
    Except.ok (URes.uarr (mkResultArr shp (emptyFill shp.prod (self.data.map g))))

/-- Common shape of the unary boolean handlers with a 0-dimensional
short-circuit (`_isnan`, `_isinf`, `_isfinite`, lines 953-979): `g0` is
the function the 0-dimensional branch applies, `g` the elementwise one
(they differ in `_isfinite`). -/
def unaryPredicate [Inhabited α] (self : UncertainArray α)
    (g0 : α → Bool) (g : α → Bool) : Except UErr (URes α) :=
  if self.shape.length = 0 then Except.ok (URes.boolScalar (g0 (item0 self)))
  else
    let shp := resolvedShape self
    Except.ok (URes.boolArr shp (emptyFill shp.prod (self.data.map g)))

def UncertainArray.radd [ScalarOps α] [Inhabited α]
    (self : UncertainArray α) (inp : BinIn α) : Except UErr (URes α) :=
  binElemwise self inp ScalarOps.add

def UncertainArray.requal [ScalarOps α] [Inhabited α]
    (self : UncertainArray α) (inp : BinIn α) : Except UErr (URes α) :=
  binPredicate self inp ScalarOps.eqb

def UncertainArray.rnot_equal [ScalarOps α] [Inhabited α]
    (self : UncertainArray α) (inp : BinIn α) : Except UErr (URes α) :=
  binPredicate self inp ScalarOps.neb

def UncertainArray.rless [ScalarOps α] [Inhabited α]
    (self : UncertainArray α) (inp : BinIn α) : Except UErr (URes α) :=
  binPredicate self inp ScalarOps.ltb

def UncertainArray.rless_equal [ScalarOps α] [Inhabited α]
    (self : UncertainArray α) (inp : BinIn α) : Except UErr (URes α) :=
  binPredicate self inp ScalarOps.leb

def UncertainArray.rgreater [ScalarOps α] [Inhabited α]
    (self : UncertainArray α) (inp : BinIn α) : Except UErr (URes α) :=
  binPredicate self inp ScalarOps.gtb

def UncertainArray.rgreater_equal [ScalarOps α] [Inhabited α]
    (self : UncertainArray α) (inp : BinIn α) : Except UErr (URes α) :=
  binPredicate self inp ScalarOps.geb

/-- `_maximum` (lines 884-900): 0-dimensional case is `a if a > b else b`;
the elementwise loop checks `_isnan(a)` first, then `_isnan(b)`, then
`a > b`, writing the first match. -/
def UncertainArray.rmaximum [ScalarOps α] [Inhabited α]
    (self : UncertainArray α) (inp : BinIn α) : Except UErr (URes α) :=
  if self.shape.length = 0 then
    (binItems inp).map (fun p =>
      URes.scalar (if ScalarOps.gtb p.1 p.2 then p.1 else p.2))
  else
    let shp := resolvedShape self
    Except.ok (URes.uarr (mkResultArr shp
      (emptyFill shp.prod ((binPairs inp).map (fun p =>
        if ScalarOps.isnanE p.1 then p.1
        else if ScalarOps.isnanE p.2 then p.2
        else if ScalarOps.gtb p.1 p.2 then p.1 else p.2)))))

/-- `_minimum` (lines 902-918): as `_maximum` with `<`. -/
def UncertainArray.rminimum [ScalarOps α] [Inhabited α]
    (self : UncertainArray α) (inp : BinIn α) : Except UErr (URes α) :=
  if self.shape.length = 0 then
    (binItems inp).map (fun p =>
      URes.scalar (if ScalarOps.ltb p.1 p.2 then p.1 else p.2))
  else
    let shp := resolvedShape self
    Except.ok (URes.uarr (mkResultArr shp
      (emptyFill shp.prod ((binPairs inp).map (fun p =>
        if ScalarOps.isnanE p.1 then p.1
        else if ScalarOps.isnanE p.2 then p.2
        else if ScalarOps.ltb p.1 p.2 then p.1 else p.2)))))

/-- `_logical_and` (lines 920-927): Python `a and b` per element, object
buffer, result re-wrapped as an `UncertainArray`. -/
def UncertainArray.rlogical_and [ScalarOps α] [Inhabited α]
    (self : UncertainArray α) (inp : BinIn α) : Except UErr (URes α) :=
  binElemwise self inp (fun a b => if ScalarOps.toBool a then b else a)

/-- `_logical_or` (lines 929-936): Python `a or b` per element, object
buffer, result re-wrapped as an `UncertainArray`. -/
def UncertainArray.rlogical_or [ScalarOps α] [Inhabited α]
    (self : UncertainArray α) (inp : BinIn α) : Except UErr (URes α) :=
  binElemwise self inp (fun a b => if ScalarOps.toBool a then a else b)

def xorMsg : String := "Boolean bitwise operations are not defined for `UncertainArray`"

/-- `_logical_xor` (lines 938-945): raises `TypeError` unconditionally
(its materialization code is commented out in the source). -/
def UncertainArray.rlogical_xor (_self : UncertainArray α) (_inp : BinIn α) :
    Except UErr (URes α) :=
  Except.error (UErr.typeError xorMsg)

def UncertainArray.rnegative [ScalarOps α] [Inhabited α]
    (self : UncertainArray α) : Except UErr (URes α) :=
  unaryElemwise self ScalarOps.neg

def UncertainArray.risnan [ScalarOps α] [Inhabited α]
    (self : UncertainArray α) : Except UErr (URes α) :=
  unaryPredicate self ScalarOps.isnanE ScalarOps.isnanE

def UncertainArray.risinf [ScalarOps α] [Inhabited α]
    (self : UncertainArray α) : Except UErr (URes α) :=
  unaryPredicate self ScalarOps.isinfE ScalarOps.isinfE

/-- The elementwise finiteness test of the array branch of `_isfinite`
(line 978): `not (_isnan(item) or _isinf(item))`. -/
def isfiniteElem [ScalarOps α] (x : α) : Bool :=
  !(ScalarOps.isnanE x || ScalarOps.isinfE x)

/-- `_isfinite` (lines 971-979).  The 0-dimensional branch returns
`_isinf(self.item(0))` -- the *is-infinite* test -- while the array
branch computes `not (_isnan or _isinf)`; the source carries a TODO
comment noting the mismatch. -/
def UncertainArray.risfinite [ScalarOps α] [Inhabited α]
    (self : UncertainArray α) : Except UErr (URes α) :=
  unaryPredicate self ScalarOps.isinfE isfiniteElem

/-- `_logical_not` (lines 947-951): no 0-dimensional short-circuit; it
always fills a `dtype=bool` buffer of the resolved shape from
`not bool(item)` and returns the raw buffer. -/
def UncertainArray.rlogical_not [ScalarOps α] [Inhabited α]
    (self : UncertainArray α) : Except UErr (URes α) :=
  Except.ok (URes.boolArr (resolvedShape self)
    (emptyFill (resolvedShape self).prod
      (self.data.map (fun x => !ScalarOps.toBool x))))

/-- The two-input ufunc names whose handlers are modelled here (the
`getattr(self, '_' + ufunc.__name__)` registry, line 141). -/
inductive Ufunc2 where
  | add
  | equal
  | not_equal
  | less
  | less_equal
  | greater
  | greater_equal
  | maximum
  | minimum
  | logical_and
  | logical_or
  | logical_xor
deriving DecidableEq, Repr

/-- The one-input ufunc names whose handlers are modelled here. -/
inductive Ufunc1 where
  | negative
  | isnan
  | isinf
  | isfinite
  | logical_not
deriving DecidableEq, Repr

def handler2 [ScalarOps α] [Inhabited α] :
    Ufunc2 → UncertainArray α → BinIn α → Except UErr (URes α)
  | Ufunc2.add => UncertainArray.radd
  | Ufunc2.equal => UncertainArray.requal
  | Ufunc2.not_equal => UncertainArray.rnot_equal
  | Ufunc2.less => UncertainArray.rless
  | Ufunc2.less_equal => UncertainArray.rless_equal
  | Ufunc2.greater => UncertainArray.rgreater
  | Ufunc2.greater_equal => UncertainArray.rgreater_equal
  | Ufunc2.maximum => UncertainArray.rmaximum
  | Ufunc2.minimum => UncertainArray.rminimum
  | Ufunc2.logical_and => UncertainArray.rlogical_and
  | Ufunc2.logical_or => UncertainArray.rlogical_or
  | Ufunc2.logical_xor => UncertainArray.rlogical_xor

def handler1 [ScalarOps α] [Inhabited α] :
    Ufunc1 → UncertainArray α → Except UErr (URes α)
  | Ufunc1.negative => UncertainArray.rnegative
  | Ufunc1.isnan => UncertainArray.risnan
  | Ufunc1.isinf => UncertainArray.risinf
  | Ufunc1.isfinite => UncertainArray.risfinite
  | Ufunc1.logical_not => UncertainArray.rlogical_not

/-- Input coercion of the two-input case of `__array_ufunc__` (lines
159-172): an input that is a single number or uncertain scalar becomes
`np.full(other.shape, it, dtype=object)`; two ndarray inputs pass
through.  (The num/num case is unreachable in the source because the
dispatching array is always among the inputs.) -/
def coerce2 [Inhabited α] : UIn α → UIn α → UncertainArray α × UncertainArray α
  | UIn.arr a, UIn.arr b => (a, b)
  | UIn.num x, UIn.arr b =>
      ({ shape := b.shape, data := List.replicate b.shape.prod x }, b)
  | UIn.arr a, UIn.num y =>
      (a, { shape := a.shape, data := List.replicate a.shape.prod y })
  | UIn.num x, UIn.num y =>
      ({ shape := [], data := [x] }, { shape := [], data := [y] })

/-- The two-input path of `__array_ufunc__` (lines 159-183): coerce the
inputs, clear `self._broadcasted_shape`, and if the shapes differ,
broadcast (recording the resolved shape on `self`, or propagating the
broadcast error).  Returns the handler result together with `self` as it
is left after the call -- the scratch field is not cleared afterwards. -/
def array_ufunc2 [ScalarOps α] [Inhabited α] (name : Ufunc2)
    (self : UncertainArray α) (i0 i1 : UIn α) :
    Except UErr (URes α) × UncertainArray α :=
  let a := (coerce2 i0 i1).1
  let b := (coerce2 i0 i1).2
  if a.shape = b.shape then
    let self2 := { self with broadcasted_shape := none }
    (handler2 name self2 (BinIn.nds a b), self2)
  else
    match broadcastShapes a.shape b.shape with
    | none => (Except.error UErr.valueError, { self with broadcasted_shape := none })
    | some bs =>
      let self2 := { self with broadcasted_shape := some bs }
      (handler2 name self2 (BinIn.iters (bcastFlat a bs) (bcastFlat b bs)), self2)

/-- The one-input path of `__array_ufunc__` (line 157): no coercion, no
touch of the scratch field; the handler runs directly on `self`. -/
def array_ufunc1 [ScalarOps α] [Inhabited α] (name : Ufunc1)
    (self : UncertainArray α) : Except UErr (URes α) :=
  handler1 name self

/-- `a + b` with both operands uncertain arrays: numpy dispatches to the
first input's `__array_ufunc__`, so `self` is `a`. -/
def uaddFull [ScalarOps α] [Inhabited α] (a b : UncertainArray α) :
    Except UErr (URes α) × UncertainArray α :=
  array_ufunc2 Ufunc2.add a (UIn.arr a) (UIn.arr b)

/-- `np.add.reduce` over an object-dtype flat stream (what
`np.asarray(self).sum()` performs): left fold of `+` seeded with the
first element. -/
def npSum [ScalarOps α] [Inhabited α] : List α → α
  | [] => default
  | x :: xs => xs.foldl ScalarOps.add x

/-- `UncertainArray.sum` with no arguments (lines 1016-1021): delegate to
the plain-ndarray full reduction; the result is a bare Python scalar with
no `shape` attribute, hence returned unwrapped.  (Axis/keyword arguments
are not modelled; the claims invoke the reduction bare.) -/
def UncertainArray.sum [ScalarOps α] [Inhabited α]
    (self : UncertainArray α) : URes α :=
  URes.scalar (npSum self.data)

/-- `UncertainArray.mean` with no arguments (lines 1023-1028): the plain
full reduction divided by the element count, returned unwrapped. -/
def UncertainArray.mean [ScalarOps α] [Inhabited α]
    (self : UncertainArray α) : URes α :=
  URes.scalar (ScalarOps.divn (npSum self.data) self.data.length)

def stdMsg : String := "`std` is not defined for `UncertainArray`"

def varMsg : String := "`var` is not defined for `UncertainArray`"

/-- `UncertainArray.std` (lines 1030-1034): raises `TypeError` before
looking at any of its `*args`/`**kwargs`, modelled as opaque lists. -/
def UncertainArray.std (_self : UncertainArray α)
    (_args : List Int) (_kwargs : List (String × Int)) : Except UErr (URes α) :=
  Except.error (UErr.typeError stdMsg)

/-- `UncertainArray.var` (lines 1036-1040): raises `TypeError` before
looking at any of its `*args`/`**kwargs`. -/
def UncertainArray.var (_self : UncertainArray α)
    (_args : List Int) (_kwargs : List (String × Int)) : Except UErr (URes α) :=
  Except.error (UErr.typeError varMsg)

/-- Constructor input (`__new__`, lines 114-126): either exactly a
`numpy.ndarray` (the `type(array) == np.ndarray` test -- subclasses and
plain sequences take the other branch) carrying its own dtype, or any
other array-like. -/
inductive ArrInput (α : Type) where
  | ndarr (shape : List Nat) (data : List α) (dtype : DType)
  | listlike (shape : List Nat) (data : List α)
deriving DecidableEq, Repr

/-- `UncertainArray.__new__` (lines 114-126): for an ndarray input the
element kind is taken from the input array itself (the `dtype` argument
is overwritten); otherwise a missing hint defaults to `object`.  The
label is attached to the new array. -/
def UncertainArray.new (array : ArrInput α) (dtype : Option DType)
    (label : Option String) : UncertainArray α :=
  match array with
  | ArrInput.ndarr sh d dt =>
      { shape := sh, data := d, label := label,
        broadcasted_shape := none, dtype := dt }
  | ArrInput.listlike sh d =>
      { shape := sh, data := d, label := label,
        broadcasted_shape := none, dtype := dtype.getD DType.object }

/-- The `labels` argument of `_intermediate` (lines 800-828): `None`, a
single shared label, or a sequence of labels. -/
inductive Labels where
  | noneL
  | single (s : String)
  | seq (ls : List String)
deriving DecidableEq, Repr

/-- Modelled from the spec: `is_sequence` is imported from the GTC
package root, which is not under src/.  Per the spec (section 4.5) it
distinguishes "one shared label" from "a full sequence of labels": a
single string label is not a sequence. -/
def is_sequence : Labels → Bool
  | Labels.seq _ => true
  | _ => false

/-- The shared-label base string used by `"{}[{}]".format(labels, i)`. -/
def labelText : Labels → String
  | Labels.single s => s
  | Labels.seq _ => ""
  | Labels.noneL => ""

/-- `np.asarray(labels)`: a single string becomes a 0-dimensional string
array, a list of strings a 1-dimensional one. -/
def labelsArray : Labels → UncertainArray String
  | Labels.noneL => { shape := [], data := [] }
  | Labels.single s => { shape := [], data := [s] }
  | Labels.seq ls => { shape := [ls.length], data := ls }

/-- The synthesized per-element labels `"<label>[<i>]"` in flattened
order (lines 813-816). -/
def indexedLabels (base : String) (n : Nat) : List String :=
  (List.range n).map (fun i => base ++ "[" ++ Nat.repr i ++ "]")

def emptyStr : String := ""

/-- `_intermediate` (lines 800-828).  `res` and `resL` stand for the
external `GTC.core.result` registration accessor, without and with a
label.  With no labels: elementwise anonymous registration (0-dimensional
short-circuit included).  Otherwise: if the array holds more than one
element and the labels are a single shared label, synthesize indexed
labels; coerce labels to an array; zip with `self.flat`. -/
def UncertainArray.rintermediate [Inhabited α] (res : α → α)
    (resL : α → String → α) (self : UncertainArray α) (labels : Labels) :
    URes α :=
  match labels with
  | Labels.noneL =>
    if self.shape.length = 0 then URes.scalar (res (item0 self))
    else
      let shp := resolvedShape self
      URes.uarr (mkResultArr shp (emptyFill shp.prod (self.data.map res)))
  | ls =>
    let larr : UncertainArray String :=
      if self.shape.prod > 1 && !(is_sequence ls) then
        { shape := [self.shape.prod],
          data := indexedLabels (labelText ls) self.shape.prod }
      else labelsArray ls
    if self.shape.length = 0 then
      URes.scalar (resL (item0 self) (larr.data.getD 0 emptyStr))
    else
      let shp := resolvedShape self
      URes.uarr (mkResultArr shp (emptyFill shp.prod
        ((self.data.zip larr.data).map (fun p => resL p.1 p.2))))

/-- Concrete element type for evaluations: a plain number extended with
NaN and the signed infinities (the `float` values appearing in the
source's doctests and in the claims). -/
inductive RNum where
  | fin (v : Int)
  | nan
  | pinf
  | ninf
deriving DecidableEq, Repr, Inhabited

def RNum.addR : RNum → RNum → RNum
  | RNum.fin a, RNum.fin b => RNum.fin (a + b)
  | RNum.nan, _ => RNum.nan
  | _, RNum.nan => RNum.nan
  | RNum.pinf, RNum.ninf => RNum.nan
  | RNum.ninf, RNum.pinf => RNum.nan
  | RNum.pinf, _ => RNum.pinf
  | _, RNum.pinf => RNum.pinf
  | RNum.ninf, _ => RNum.ninf
  | _, RNum.ninf => RNum.ninf

def RNum.negR : RNum → RNum
  | RNum.fin a => RNum.fin (-a)
  | RNum.nan => RNum.nan
  | RNum.pinf => RNum.ninf
  | RNum.ninf => RNum.pinf

/-- IEEE-style `<`: any comparison involving NaN is false. -/
def RNum.ltbR : RNum → RNum → Bool
  | RNum.nan, _ => false
  | _, RNum.nan => false
  | RNum.fin a, RNum.fin b => decide (a < b)
  | RNum.fin _, RNum.pinf => true
  | RNum.ninf, RNum.fin _ => true
  | RNum.ninf, RNum.pinf => true
  | _, _ => false

def RNum.lebR : RNum → RNum → Bool
  | RNum.nan, _ => false
  | _, RNum.nan => false
  | RNum.fin a, RNum.fin b => decide (a ≤ b)
  | RNum.ninf, _ => true
  | _, RNum.pinf => true
  | _, _ => false

def RNum.eqbR : RNum → RNum → Bool
  | RNum.fin a, RNum.fin b => decide (a = b)
  | RNum.pinf, RNum.pinf => true
  | RNum.ninf, RNum.ninf => true
  | _, _ => false

def RNum.isnanR : RNum → Bool
  | RNum.nan => true
  | _ => false

def RNum.isinfR : RNum → Bool
  | RNum.pinf => true
  | RNum.ninf => true
  | _ => false

/-- Python truthiness: zero is falsy; NaN and the infinities are truthy. -/
def RNum.toBoolR : RNum → Bool
  | RNum.fin a => decide (a ≠ 0)
  | _ => true

def RNum.divnR : RNum → Nat → RNum
  | RNum.fin a, n => RNum.fin (a / (n : Int))
  | x, _ => x

instance : ScalarOps RNum where
  add := RNum.addR
  neg := RNum.negR
  ltb := RNum.ltbR
  leb := RNum.lebR
  gtb := fun a b => RNum.ltbR b a
  geb := fun a b => RNum.lebR b a
  eqb := RNum.eqbR
  neb := fun a b => !RNum.eqbR a b
  isnanE := RNum.isnanR
  isinfE := RNum.isinfR
  toBool := RNum.toBoolR
  divn := RNum.divnR

/-- Discriminator: the dispatched result is a re-wrapped `UncertainArray`. -/
def resIsUArr : Except UErr (URes α) → Bool
  | Except.ok (URes.uarr _) => true
  | _ => false

/-- Discriminator: the dispatched result is a plain boolean ndarray. -/
def resIsPlainBool : Except UErr (URes α) → Bool
  | Except.ok (URes.boolArr _ _) => true
  | _ => false

/-- Discriminator: the dispatch raised a `TypeError`. -/
def resIsTypeError : Except UErr (URes α) → Bool
  | Except.error (UErr.typeError _) => true
  | _ => false

/-- The shape of a re-wrapped array result, when the result is one. -/
def uarrShapeOf : Except UErr (URes α) → Option (List Nat)
  | Except.ok (URes.uarr r) => some r.shape
  | _ => none

theorem getD_range_map {α : Type} [Inhabited α] (f : Nat → α) (n i : Nat)
    (h : i < n) : ((List.range n).map f).getD i default = f i := by
  rw [List.getD_eq_getElem?_getD, List.getElem?_map, List.getElem?_range h]
  rfl

theorem emptyFill_range_map {α : Type} [Inhabited α] (f : Nat → α) (n : Nat) :
    emptyFill n ((List.range n).map f) = (List.range n).map f := by
  unfold emptyFill
  refine List.map_congr_left ?_
  intro i hi
  exact getD_range_map f n i (List.mem_range.mp hi)

theorem zip_map_getD {α β γ : Type} [Inhabited α] [Inhabited β] [Inhabited γ]
    (g : α → β → γ) :
    ∀ (as : List α) (bs : List β) (i : Nat), i < as.length → i < bs.length →
      ((as.zip bs).map (fun p => g p.1 p.2)).getD i default
        = g (as.getD i default) (bs.getD i default)
  | [], _, i, h1, _ => absurd h1 (by simp)
  | _ :: _, [], i, _, h2 => absurd h2 (by simp)
  | _ :: _, _ :: _, 0, _, _ => rfl
  | a :: as, b :: bs, (i+1), h1, h2 => by
      simpa using zip_map_getD g as bs i
        (by simpa using h1) (by simpa using h2)

theorem ravel_mask_unravel :
    ∀ (s : List Nat) (i : Nat), i < s.prod →
      ravel s (maskIdx s (unravel s i)) = i := by
  intro s
  induction s with
  | nil =>
    intro i h
    simp only [List.prod_nil] at h
    interval_cases i
    rfl
  | cons d ds ih =>
    intro i h
    rw [List.prod_cons] at h
    have hP : 0 < ds.prod := by
      rcases Nat.eq_zero_or_pos ds.prod with h0 | h0
      · rw [h0, Nat.mul_zero] at h; omega
      · exact h0
    have hmod : i % ds.prod < ds.prod := Nat.mod_lt i hP
    have ihm := ih (i % ds.prod) hmod
    show ravel (d :: ds)
      (maskIdx (d :: ds) (i / ds.prod :: unravel ds (i % ds.prod))) = i
    show ravel (d :: ds)
      ((if d = 1 then 0 else i / ds.prod) :: maskIdx ds (unravel ds (i % ds.prod))) = i
    show (if d = 1 then 0 else i / ds.prod) * ds.prod
      + ravel ds (maskIdx ds (unravel ds (i % ds.prod))) = i
    rw [ihm]
    by_cases hd : d = 1
    · rw [if_pos hd]
      rw [hd, Nat.one_mul] at h
      rw [Nat.zero_mul, Nat.zero_add]
      exact Nat.mod_eq_of_lt h
    · rw [if_neg hd, Nat.mul_comm]
      exact Nat.div_add_mod i ds.prod

theorem bcast_index_self (s : List Nat) (i : Nat) (h : i < s.prod) :
    bcastIndex s s i = i := by
  unfold bcastIndex
  rw [Nat.sub_self, List.drop_zero]
  exact ravel_mask_unravel s i h

theorem bcastRev_self : ∀ (s : List Nat), bcastRev s s = some s := by
  intro s
  induction s with
  | nil => rfl
  | cons d ds ih =>
    show (match bdim d d, bcastRev ds ds with
      | some x, some r => some (x :: r)
      | _, _ => none) = some (d :: ds)
    have hb : bdim d d = some d := by
      unfold bdim
      by_cases hd : d = 1
      · rw [if_pos hd, hd]
      · rw [if_neg hd, if_neg hd, if_pos rfl]
    rw [hb, ih]

theorem broadcastShapes_self (s : List Nat) : broadcastShapes s s = some s := by
  unfold broadcastShapes
  rw [bcastRev_self]
  show some s.reverse.reverse = some s
  rw [List.reverse_reverse]

theorem handler_add_unfold {α : Type} [ScalarOps α] [Inhabited α]
    (self : UncertainArray α) (inp : BinIn α) :
    handler2 Ufunc2.add self inp = binElemwise self inp ScalarOps.add := rfl

theorem binElemwise_pos {α : Type} [Inhabited α] (self : UncertainArray α)
    (inp : BinIn α) (g : α → α → α) (h : ¬self.shape.length = 0) :
    binElemwise self inp g = Except.ok (URes.uarr (mkResultArr (resolvedShape self)
      (emptyFill (resolvedShape self).prod
        ((binPairs inp).map (fun p => g p.1 p.2))))) := by
  unfold binElemwise
  rw [if_neg h]

/-- C1 (amended): for a dispatching array of positive dimension and a
second array of broadcast-compatible shape, `a + b` through
`__array_ufunc__` returns a new `UncertainArray` whose shape is the
broadcast of the two shapes and whose flat element `i` is the scalar sum
of the two operands' broadcast elements `i`. -/
theorem c1_add_broadcast {α : Type} [ScalarOps α] [Inhabited α]
    (a b : UncertainArray α) (bs : List Nat)
    (hd : 1 ≤ a.shape.length)
    (ha : a.data.length = a.shape.prod) (hb : b.data.length = b.shape.prod)
    (hbs : broadcastShapes a.shape b.shape = some bs) :
    (uaddFull a b).1 = Except.ok (URes.uarr (mkResultArr bs
      ((List.range bs.prod).map (fun i =>
        ScalarOps.add (bcastGet a bs i) (bcastGet b bs i))))) := by
  unfold uaddFull array_ufunc2
  simp only [coerce2]
  by_cases hsh : a.shape = b.shape
  · rw [if_pos hsh]
    have hbs2 : bs = a.shape := by
      rw [hsh]
      rw [hsh, broadcastShapes_self] at hbs
      exact (Option.some_inj.mp hbs).symm
    show handler2 Ufunc2.add { a with broadcasted_shape := none }
      (BinIn.nds a b) = _
    rw [handler_add_unfold]
    refine (binElemwise_pos _ _ _ ?_).trans ?_
    · show ¬a.shape.length = 0
      omega
    show Except.ok (URes.uarr (mkResultArr a.shape
      (emptyFill a.shape.prod ((binPairs (BinIn.nds a b)).map _)))) = _
    rw [hbs2]
    refine congrArg _ (congrArg _ (congrArg _ ?_))
    simp only [binPairs]
    unfold emptyFill
    refine List.map_congr_left ?_
    intro i hi
    have hi2 : i < a.shape.prod := List.mem_range.mp hi
    have hia : i < a.data.length := by omega
    have hib : i < b.data.length := by rw [hb, ← hsh]; exact hi2
    rw [zip_map_getD _ a.data b.data i hia hib]
    unfold bcastGet
    rw [bcast_index_self a.shape i hi2]
    have hbidx : bcastIndex b.shape a.shape i = i := by
      rw [← hsh]; exact bcast_index_self a.shape i hi2
    rw [hbidx]
  · rw [if_neg hsh, hbs]
    show handler2 Ufunc2.add { a with broadcasted_shape := some bs }
      (BinIn.iters (bcastFlat a bs) (bcastFlat b bs)) = _
    rw [handler_add_unfold]
    refine (binElemwise_pos _ _ _ ?_).trans ?_
    · show ¬a.shape.length = 0
      omega
    show Except.ok (URes.uarr (mkResultArr bs (emptyFill bs.prod
      ((binPairs (BinIn.iters (bcastFlat a bs) (bcastFlat b bs))).map _)))) = _
    refine congrArg _ (congrArg _ (congrArg _ ?_))
    simp only [binPairs]
    unfold emptyFill
    refine List.map_congr_left ?_
    intro i hi
    have hi2 : i < bs.prod := List.mem_range.mp hi
    have hla : i < (bcastFlat a bs).length := by
      simpa [bcastFlat] using hi2
    have hlb : i < (bcastFlat b bs).length := by
      simpa [bcastFlat] using hi2
    rw [zip_map_getD _ _ _ i hla hlb]
    show ScalarOps.add ((bcastFlat a bs).getD i default)
      ((bcastFlat b bs).getD i default) = _
    unfold bcastFlat
    rw [getD_range_map _ _ i hi2, getD_range_map _ _ i hi2]

theorem binPredicate_pos {α : Type} [Inhabited α] (self : UncertainArray α)
    (inp : BinIn α) (g : α → α → Bool) (h : ¬self.shape.length = 0) :
    resIsPlainBool (binPredicate self inp g) = true := by
  unfold binPredicate
  rw [if_neg h]
  rfl

theorem unaryPredicate_pos {α : Type} [Inhabited α] (self : UncertainArray α)
    (g0 g : α → Bool) (h : ¬self.shape.length = 0) :
    resIsPlainBool (unaryPredicate self g0 g) = true := by
  unfold unaryPredicate
  rw [if_neg h]
  rfl

/-- The comparison ufuncs, whose handlers fill a boolean buffer. -/
def cmpNames : List Ufunc2 :=
  [Ufunc2.equal, Ufunc2.not_equal, Ufunc2.less, Ufunc2.less_equal,
   Ufunc2.greater, Ufunc2.greater_equal]

/-- The unary boolean-producing ufuncs. -/
def predNames : List Ufunc1 :=
  [Ufunc1.isnan, Ufunc1.isinf, Ufunc1.isfinite, Ufunc1.logical_not]

theorem handler2_cmp_bool {α : Type} [ScalarOps α] [Inhabited α] (op : Ufunc2)
    (hop : op ∈ cmpNames) (self : UncertainArray α) (inp : BinIn α)
    (h : ¬self.shape.length = 0) :
    resIsPlainBool (handler2 op self inp) = true := by
  simp only [cmpNames, List.mem_cons, List.not_mem_nil, or_false] at hop
  rcases hop with rfl | rfl | rfl | rfl | rfl | rfl <;>
    exact binPredicate_pos self inp _ h

theorem handler1_pred_bool {α : Type} [ScalarOps α] [Inhabited α] (op : Ufunc1)
    (hop : op ∈ predNames) (self : UncertainArray α)
    (h : ¬self.shape.length = 0) :
    resIsPlainBool (handler1 op self) = true := by
  simp only [predNames, List.mem_cons, List.not_mem_nil, or_false] at hop
  rcases hop with rfl | rfl | rfl | rfl
  · exact unaryPredicate_pos self _ _ h
  · exact unaryPredicate_pos self _ _ h
  · exact unaryPredicate_pos self _ _ h
  · rfl

/-- C4 (amended): the comparison operators and the unary predicates
`isnan`/`isinf`/`isfinite`/`logical_not`, dispatched on an array of
positive dimension with a broadcast-compatible second operand, return a
plain boolean ndarray (never a re-wrapped `UncertainArray`); the claim's
inclusion of the logical ops fails for `logical_and`/`logical_or`, which
re-wrap. -/
theorem c4_bool_ops_plain {α : Type} [ScalarOps α] [Inhabited α]
    (op2 : Ufunc2) (op1 : Ufunc1) (a b : UncertainArray α)
    (h2 : op2 ∈ cmpNames) (h1 : op1 ∈ predNames)
    (hd : 1 ≤ a.shape.length)
    (hbc : (broadcastShapes a.shape b.shape).isSome = true) :
    resIsPlainBool ((array_ufunc2 op2 a (UIn.arr a) (UIn.arr b)).1) = true ∧
    resIsPlainBool (array_ufunc1 op1 a) = true := by
  constructor
  · unfold array_ufunc2
    simp only [coerce2]
    by_cases hsh : a.shape = b.shape
    · rw [if_pos hsh]
      exact handler2_cmp_bool op2 h2 _ (BinIn.nds a b)
        (show ¬a.shape.length = 0 by omega)
    · rw [if_neg hsh]
      obtain ⟨bs, hbs⟩ := Option.isSome_iff_exists.mp hbc
      rw [hbs]
      exact handler2_cmp_bool op2 h2 _ _
        (show ¬a.shape.length = 0 by omega)
  · exact handler1_pred_bool op1 h1 a (show ¬a.shape.length = 0 by omega)

/-- C5 (amended): a dispatched binary operation never changes the
dispatching array's shape, elements or label; the only per-array state it
writes is the `_broadcasted_shape` scratch field, which is left holding
the broadcast result of this call (cleared, the broadcast shape, or the
failure) rather than being reset afterwards. -/
theorem c5_frame_and_scratch {α : Type} [ScalarOps α] [Inhabited α]
    (name : Ufunc2) (self : UncertainArray α) (i0 i1 : UIn α) :
    ((array_ufunc2 name self i0 i1).2.shape = self.shape
      ∧ (array_ufunc2 name self i0 i1).2.data = self.data
      ∧ (array_ufunc2 name self i0 i1).2.label = self.label)
    ∧ (array_ufunc2 name self i0 i1).2.broadcasted_shape =
        (if (coerce2 i0 i1).1.shape = (coerce2 i0 i1).2.shape then none
         else broadcastShapes (coerce2 i0 i1).1.shape (coerce2 i0 i1).2.shape) := by
  unfold array_ufunc2
  by_cases hsh : (coerce2 i0 i1).1.shape = (coerce2 i0 i1).2.shape
  · simp [hsh]
  · cases hbs : broadcastShapes (coerce2 i0 i1).1.shape (coerce2 i0 i1).2.shape <;>
      simp [hsh, hbs]

/-- C10 (amended): when the coerced inputs' shapes are
broadcast-compatible, dispatching `logical_xor` always raises the
`TypeError` of `_logical_xor`, whatever the shapes and elements are.
(Broadcast-incompatible inputs instead fail earlier with the broadcast
`ValueError`.) -/
theorem c10_xor_type_error {α : Type} [ScalarOps α] [Inhabited α]
    (self : UncertainArray α) (i0 i1 : UIn α)
    (hbc : (broadcastShapes (coerce2 i0 i1).1.shape
      (coerce2 i0 i1).2.shape).isSome = true) :
    (array_ufunc2 Ufunc2.logical_xor self i0 i1).1
      = Except.error (UErr.typeError xorMsg) := by
  unfold array_ufunc2
  by_cases hsh : (coerce2 i0 i1).1.shape = (coerce2 i0 i1).2.shape
  · rw [if_pos hsh]
    rfl
  · rw [if_neg hsh]
    obtain ⟨bs, hbs⟩ := Option.isSome_iff_exists.mp hbc
    rw [hbs]
    rfl

def c1arrA : UncertainArray RNum :=
  { shape := [2, 1], data := [RNum.fin 1, RNum.fin 2] }

def c1arrB : UncertainArray RNum :=
  { shape := [3], data := [RNum.fin 10, RNum.fin 20, RNum.fin 30] }

def zdimA : UncertainArray RNum := { shape := [], data := [RNum.fin 5] }

def zdimB : UncertainArray RNum := { shape := [], data := [RNum.fin 3] }

/-- C1 counterexample: two 0-dimensional uncertain arrays have
broadcast-compatible shapes, yet `a + b` returns the bare scalar sum, not
a new `UncertainArray` (the `self.ndim == 0` branch of `_add`). -/
theorem c1_zero_dim_not_wrapped :
    broadcastShapes zdimA.shape zdimB.shape = some [] ∧
    (uaddFull zdimA zdimB).1 = Except.ok (URes.scalar (RNum.fin 8)) ∧
    resIsUArr (uaddFull zdimA zdimB).1 = false := by decide

/-- C1 witness: shapes `[2,1]` and `[3]` broadcast to `[2,3]` and the
elementwise sums land in row-major order. -/
theorem c1_add_broadcast_witness :
    (1 ≤ c1arrA.shape.length
      ∧ c1arrA.data.length = c1arrA.shape.prod
      ∧ c1arrB.data.length = c1arrB.shape.prod
      ∧ broadcastShapes c1arrA.shape c1arrB.shape = some [2, 3])
    ∧ (uaddFull c1arrA c1arrB).1 = Except.ok (URes.uarr (mkResultArr [2, 3]
        [RNum.fin 11, RNum.fin 21, RNum.fin 31,
         RNum.fin 12, RNum.fin 22, RNum.fin 32])) := by
  refine ⟨by decide, ?_⟩
  have h := c1_add_broadcast c1arrA c1arrB [2, 3]
    (by decide) (by decide) (by decide) (by decide)
  rw [h]
  decide

def zfin1 : UncertainArray RNum := { shape := [], data := [RNum.fin 1] }

/-- C2: the 0-dimensional branch of `_isfinite` applies `_isinf` to the
sole element, so `isfinite` of a 0-dimensional array holding the finite
number 1 yields `False`, although the scalar-level finiteness test (the
one the array branch of the same handler uses) yields `True`.  This is
the defect the source's own TODO comment points at. -/
theorem c2_isfinite_zero_dim_bug :
    array_ufunc1 Ufunc1.isfinite zfin1 = Except.ok (URes.boolScalar false)
    ∧ isfiniteElem (RNum.fin 1) = true := by decide

def c3arrA : UncertainArray RNum :=
  { shape := [2], data := [RNum.fin 1, RNum.nan] }

def c3arrB : UncertainArray RNum :=
  { shape := [2], data := [RNum.nan, RNum.fin 2] }

/-- C3 counterexample: on `[1, NaN]` and `[NaN, 2]` the elementwise
`maximum` returns `[NaN, NaN]` -- element 0 is NaN, not the claimed 1 --
because `_maximum` writes a NaN operand first. -/
theorem c3_nan_wins_maximum :
    (array_ufunc2 Ufunc2.maximum c3arrA (UIn.arr c3arrA) (UIn.arr c3arrB)).1
      = Except.ok (URes.uarr (mkResultArr [2] [RNum.nan, RNum.nan]))
    ∧ (array_ufunc2 Ufunc2.maximum c3arrA (UIn.arr c3arrA) (UIn.arr c3arrB)).1
      ≠ Except.ok (URes.uarr (mkResultArr [2] [RNum.fin 1, RNum.fin 2])) := by
  decide

/-- C3 (amended): a NaN operand always wins: on `[1, NaN]` and `[NaN, 2]`
both `maximum` and `minimum` return `[NaN, NaN]` (NaN propagates). -/
theorem c3_nan_propagates :
    (array_ufunc2 Ufunc2.maximum c3arrA (UIn.arr c3arrA) (UIn.arr c3arrB)).1
      = Except.ok (URes.uarr (mkResultArr [2] [RNum.nan, RNum.nan]))
    ∧ (array_ufunc2 Ufunc2.minimum c3arrA (UIn.arr c3arrA) (UIn.arr c3arrB)).1
      = Except.ok (URes.uarr (mkResultArr [2] [RNum.nan, RNum.nan])) := by
  decide

def c4arrA : UncertainArray RNum :=
  { shape := [2], data := [RNum.fin 1, RNum.fin 0] }

def c4arrB : UncertainArray RNum :=
  { shape := [2], data := [RNum.fin 0, RNum.fin 2] }

/-- C4 counterexample: `logical_and` on two 1-dimensional arrays returns
a re-wrapped `UncertainArray` (object buffer of Python `and` results),
not a plain boolean ndarray. -/
theorem c4_logical_and_wraps :
    resIsPlainBool ((array_ufunc2 Ufunc2.logical_and c4arrA
      (UIn.arr c4arrA) (UIn.arr c4arrB)).1) = false
    ∧ resIsUArr ((array_ufunc2 Ufunc2.logical_and c4arrA
      (UIn.arr c4arrA) (UIn.arr c4arrB)).1) = true := by decide

def c4wA : UncertainArray RNum :=
  { shape := [2], data := [RNum.fin 1, RNum.fin 2] }

def c4wB : UncertainArray RNum :=
  { shape := [2], data := [RNum.fin 2, RNum.fin 1] }

/-- C4 witness: `equal` on equal-shape arrays and `isnan` on a
1-dimensional array each return a plain boolean ndarray. -/
theorem c4_bool_ops_plain_witness :
    ((Ufunc2.equal ∈ cmpNames) ∧ (Ufunc1.isnan ∈ predNames)
      ∧ 1 ≤ c4wA.shape.length
      ∧ (broadcastShapes c4wA.shape c4wB.shape).isSome = true)
    ∧ (resIsPlainBool ((array_ufunc2 Ufunc2.equal c4wA
        (UIn.arr c4wA) (UIn.arr c4wB)).1) = true
      ∧ resIsPlainBool (array_ufunc1 Ufunc1.isnan c4wA) = true) :=
  ⟨⟨by decide, by decide, by decide, by decide⟩,
    c4_bool_ops_plain Ufunc2.equal Ufunc1.isnan c4wA c4wB
      (by decide) (by decide) (by decide) (by decide)⟩

def c5arrA : UncertainArray RNum :=
  { shape := [3], data := [RNum.fin 1, RNum.fin 2, RNum.fin 3] }

def c5arrB : UncertainArray RNum :=
  { shape := [2, 3],
    data := [RNum.fin 10, RNum.fin 20, RNum.fin 30,
             RNum.fin 40, RNum.fin 50, RNum.fin 60] }

/-- C5 counterexample: after the broadcasting `a + b` (shapes `[3]` and
`[2,3]`), the dispatching array still carries `_broadcasted_shape =
(2,3)`; a subsequent unary negation on it materializes a `[2,3]` result,
whereas negating the array before the addition yields shape `[3]`.  The
binary operation thus leaves persistent per-array state that changes a
later unary operation's result. -/
theorem c5_stale_scratch :
    uarrShapeOf (array_ufunc1 Ufunc1.negative
      ((array_ufunc2 Ufunc2.add c5arrA (UIn.arr c5arrA) (UIn.arr c5arrB)).2))
      = some [2, 3]
    ∧ uarrShapeOf (array_ufunc1 Ufunc1.negative c5arrA) = some [3] := by decide

/-- C6: `std` and `var` raise `TypeError` unconditionally, whatever the
array and whatever positional or keyword arguments are passed. -/
theorem c6_std_var_raise {α : Type} (a : UncertainArray α)
    (args : List Int) (kwargs : List (String × Int)) :
    UncertainArray.std a args kwargs = Except.error (UErr.typeError stdMsg)
    ∧ UncertainArray.var a args kwargs = Except.error (UErr.typeError varMsg) :=
  ⟨rfl, rfl⟩

def c7arr : UncertainArray RNum :=
  { shape := [3], data := [RNum.fin 1, RNum.fin 2, RNum.fin 3] }

/-- C7 counterexample: on `[1,2,3]` the `mean` reduction yields the bare
scalar 2, not 6, and the `sum` reduction does not yield 2 -- the claim
swaps the two values. -/
theorem c7_mean_sum_swapped :
    UncertainArray.mean c7arr = URes.scalar (RNum.fin 2)
    ∧ UncertainArray.mean c7arr ≠ URes.scalar (RNum.fin 6)
    ∧ UncertainArray.sum c7arr ≠ URes.scalar (RNum.fin 2) := by decide

/-- C7 (amended): on the 1-D array `[1,2,3]` the `sum` reduction yields
the bare scalar 6 and the `mean` reduction the bare scalar 2, neither
wrapped in an `UncertainArray`. -/
theorem c7_sum_mean_values :
    UncertainArray.sum c7arr = URes.scalar (RNum.fin 6)
    ∧ UncertainArray.mean c7arr = URes.scalar (RNum.fin 2) := by decide

/-- C8 counterexample: constructing from a concretely-typed ndarray of
kind `float64` with the explicit hint `complex128` yields element kind
`float64`: the hint is overwritten by the input array's own dtype
(`__new__`, line 120), not honored. -/
theorem c8_hint_ignored :
    (UncertainArray.new (ArrInput.ndarr [1] [RNum.fin 1] DType.float64)
      (some DType.complex128) none).dtype = DType.float64
    ∧ (UncertainArray.new (ArrInput.ndarr [1] [RNum.fin 1] DType.float64)
      (some DType.complex128) none).dtype ≠ DType.complex128 := by decide

/-- C8 (amended): for an ndarray input the element kind is always the
input's own dtype (any hint is ignored); for a non-ndarray input with no
hint it defaults to the generic `object` kind. -/
theorem c8_dtype_rules {α : Type} (sh : List Nat) (d : List α) (dt : DType)
    (hint : Option DType) (lbl : Option String) :
    (UncertainArray.new (ArrInput.ndarr sh d dt) hint lbl).dtype = dt
    ∧ (UncertainArray.new (ArrInput.listlike sh d) none lbl).dtype
        = DType.object :=
  ⟨rfl, rfl⟩

def xLbl : String := "x"

def xLbl0 : String := "x[0]"

def xLbl1 : String := "x[1]"

def xLbl2 : String := "x[2]"

/-- C9: registering intermediate results with the single shared label
`"x"` on a 3-element array registers the elements under the synthesized
labels `"x[0]"`, `"x[1]"`, `"x[2]"`, zipped with the elements in
flattened order. -/
theorem c9_shared_label {α : Type} [Inhabited α] (res : α → α)
    (resL : α → String → α) (x0 x1 x2 : α) :
    UncertainArray.rintermediate res resL
        { shape := [3], data := [x0, x1, x2] } (Labels.single xLbl)
      = URes.uarr (mkResultArr [3]
          [resL x0 xLbl0, resL x1 xLbl1, resL x2 xLbl2]) := by
  have hl : indexedLabels xLbl 3 = [xLbl0, xLbl1, xLbl2] := by decide
  show URes.uarr (mkResultArr [3] (emptyFill (([3] : List Nat).prod)
    (([x0, x1, x2].zip (indexedLabels xLbl 3)).map (fun p => resL p.1 p.2)))) = _
  rw [hl]
  rfl

def xorArrA : UncertainArray RNum :=
  { shape := [2], data := [RNum.fin 1, RNum.fin 2] }

def xorArrB : UncertainArray RNum :=
  { shape := [2], data := [RNum.fin 3, RNum.fin 4] }

def xorArrC : UncertainArray RNum :=
  { shape := [3], data := [RNum.fin 1, RNum.fin 2, RNum.fin 3] }

/-- C10 counterexample: with broadcast-incompatible inputs (shapes `[2]`
and `[3]`) the `logical_xor` dispatch fails in the coercion step with the
broadcast `ValueError` before `_logical_xor` runs -- no `TypeError` is
raised. -/
theorem c10_incompatible_value_error :
    resIsTypeError ((array_ufunc2 Ufunc2.logical_xor xorArrA
      (UIn.arr xorArrA) (UIn.arr xorArrC)).1) = false
    ∧ (array_ufunc2 Ufunc2.logical_xor xorArrA
      (UIn.arr xorArrA) (UIn.arr xorArrC)).1
        = Except.error UErr.valueError := by decide

/-- C10 witness: on two compatible `[2]`-shaped arrays the dispatch
raises the `TypeError` of `_logical_xor`. -/
theorem c10_xor_type_error_witness :
    (broadcastShapes (coerce2 (UIn.arr xorArrA) (UIn.arr xorArrB)).1.shape
      (coerce2 (UIn.arr xorArrA) (UIn.arr xorArrB)).2.shape).isSome = true
    ∧ (array_ufunc2 Ufunc2.logical_xor xorArrA
        (UIn.arr xorArrA) (UIn.arr xorArrB)).1
          = Except.error (UErr.typeError xorMsg) :=
  ⟨by decide,
    c10_xor_type_error xorArrA (UIn.arr xorArrA) (UIn.arr xorArrB) (by decide)⟩
